import Mathlib

/-!
Shallow embedding of the `dify_dataset_sdk.tags` module: the pydantic data
models of `tags/models.py` and the `TagsClient` facade of `tags/client.py`.

JSON values are modelled by an inductive `Json`; a pydantic model parse
(`Model(**mapping)`) is a function `Json → Except String Model` that looks up
each declared field, ignores undeclared keys (`extra="ignore"`), and fails when
a required field is absent or has the wrong shape, or a declared optional field
is present with a non-null value of the wrong shape.  `model_dump()` is a
function back to `Json` emitting the declared fields in declaration order.

The injected HTTP transport (`BaseClient`) is a function from a call
description to either a transport error or a parsed JSON response.  Each client
method returns the result (`Except DifyError α`) together with the list of
transport calls it issued, so that "exactly one call" and "no call before a
local validation failure" are stated directly.
-/

/-- A parsed JSON value, as the transport returns it and as bodies are sent. -/
inductive Json where
  | null : Json
  | bool : Bool → Json
  | int : Int → Json
  | str : String → Json
  | arr : List Json → Json
  | obj : List (String × Json) → Json

/-- Key lookup in a JSON object (Python dict access; keys are unique). -/
def lookupJson : List (String × Json) → String → Option Json
  | [], _ => none
  | (k, v) :: rest, key => if k = key then some v else lookupJson rest key

/-- A required `str` field: present and a JSON string, else a validation error. -/
def getReqStr (fields : List (String × Json)) (key : String) : Except String String :=
  match lookupJson fields key with
  | some (.str s) => .ok s
  | some _ => .error key
  | none => .error key

/-- A required `bool` field. -/
def getReqBool (fields : List (String × Json)) (key : String) : Except String Bool :=
  match lookupJson fields key with
  | some (.bool b) => .ok b
  | some _ => .error key
  | none => .error key

/-- An `Optional[str]` field: absent or null parses to `none`. -/
def getOptStr (fields : List (String × Json)) (key : String) : Except String (Option String) :=
  match lookupJson fields key with
  | none => .ok none
  | some .null => .ok none
  | some (.str s) => .ok (some s)
  | some _ => .error key

/-- An `Optional[int]` field: absent or null parses to `none`. -/
def getOptInt (fields : List (String × Json)) (key : String) : Except String (Option Int) :=
  match lookupJson fields key with
  | none => .ok none
  | some .null => .ok none
  | some (.int n) => .ok (some n)
  | some _ => .error key

/-- `True` exactly on an `Except.ok` value. -/
def isOkE : Except ε α → Bool
  | .ok _ => true
  | .error _ => false

-- ===== Knowledge tag models (tags/models.py) =====

/-- `KnowledgeTag`: id and name required, four optional fields defaulting to None. -/
structure KnowledgeTag where
  id : String
  name : String
  color : Option String
  created_at : Option Int
  updated_at : Option Int
  binding_count : Option Int

/-- Parse a JSON object into a `KnowledgeTag` (pydantic validation, extra keys ignored). -/
def KnowledgeTag.fromObj (fields : List (String × Json)) : Except String KnowledgeTag :=
  match getReqStr fields "id", getReqStr fields "name", getOptStr fields "color",
      getOptInt fields "created_at", getOptInt fields "updated_at",
      getOptInt fields "binding_count" with
  | .ok i, .ok n, .ok c, .ok ca, .ok ua, .ok bc => .ok ⟨i, n, c, ca, ua, bc⟩
  | .error m, _, _, _, _, _ => .error m
  | _, .error m, _, _, _, _ => .error m
  | _, _, .error m, _, _, _ => .error m
  | _, _, _, .error m, _, _ => .error m
  | _, _, _, _, .error m, _ => .error m
  | _, _, _, _, _, .error m => .error m

/-- `KnowledgeTag(**response)`: the response must be a mapping. -/
def KnowledgeTag.fromJson : Json → Except String KnowledgeTag
  | .obj fields => KnowledgeTag.fromObj fields
  | _ => .error "KnowledgeTag"

/-- `CreateKnowledgeTagRequest`: name with `max_length=50`. -/
structure CreateKnowledgeTagRequest where
  name : String

/-- Pydantic construction of `CreateKnowledgeTagRequest(name=name)`. -/
def CreateKnowledgeTagRequest.validate (name : String) :
    Except String CreateKnowledgeTagRequest :=
  if name.length ≤ 50 then .ok ⟨name⟩ else .error "name"

/-- `model_dump()` of the create-tag request. -/
def CreateKnowledgeTagRequest.model_dump (r : CreateKnowledgeTagRequest) : Json :=
  .obj [("name", .str r.name)]

/-- `UpdateKnowledgeTagRequest`: name with `max_length=50`, plus tag_id. -/
structure UpdateKnowledgeTagRequest where
  name : String
  tag_id : String

/-- Pydantic construction of `UpdateKnowledgeTagRequest(name=name, tag_id=tag_id)`. -/
def UpdateKnowledgeTagRequest.validate (name tag_id : String) :
    Except String UpdateKnowledgeTagRequest :=
  if name.length ≤ 50 then .ok ⟨name, tag_id⟩ else .error "name"

/-- `model_dump()` of the update-tag request. -/
def UpdateKnowledgeTagRequest.model_dump (r : UpdateKnowledgeTagRequest) : Json :=
  .obj [("name", .str r.name), ("tag_id", .str r.tag_id)]

/-- `DeleteKnowledgeTagRequest`: just tag_id, no constraint. -/
structure DeleteKnowledgeTagRequest where
  tag_id : String

/-- `model_dump()` of the delete-tag request. -/
def DeleteKnowledgeTagRequest.model_dump (r : DeleteKnowledgeTagRequest) : Json :=
  .obj [("tag_id", .str r.tag_id)]

/-- `BindDatasetToTagRequest`: tag id list (no non-emptiness constraint) and target id. -/
structure BindDatasetToTagRequest where
  tag_ids : List String
  target_id : String

/-- `model_dump()` of the bind request. -/
def BindDatasetToTagRequest.model_dump (r : BindDatasetToTagRequest) : Json :=
  .obj [("tag_ids", .arr (r.tag_ids.map Json.str)), ("target_id", .str r.target_id)]

/-- `UnbindDatasetFromTagRequest`: tag_id and target_id. -/
structure UnbindDatasetFromTagRequest where
  tag_id : String
  target_id : String

/-- `model_dump()` of the unbind request. -/
def UnbindDatasetFromTagRequest.model_dump (r : UnbindDatasetFromTagRequest) : Json :=
  .obj [("tag_id", .str r.tag_id), ("target_id", .str r.target_id)]

-- ===== Metadata models (tags/models.py) =====

/-- `Metadata`: id, type, name required, use_count optional. -/
structure Metadata where
  id : String
  type : String
  name : String
  use_count : Option Int

/-- Parse a JSON object into a `Metadata` (extra keys ignored). -/
def Metadata.fromObj (fields : List (String × Json)) : Except String Metadata :=
  match getReqStr fields "id", getReqStr fields "type", getReqStr fields "name",
      getOptInt fields "use_count" with
  | .ok i, .ok t, .ok n, .ok uc => .ok ⟨i, t, n, uc⟩
  | .error m, _, _, _ => .error m
  | _, .error m, _, _ => .error m
  | _, _, .error m, _ => .error m
  | _, _, _, .error m => .error m

/-- `Metadata(**response)`: the response must be a mapping. -/
def Metadata.fromJson : Json → Except String Metadata
  | .obj fields => Metadata.fromObj fields
  | _ => .error "Metadata"

/-- `MetadataValue`: id, value, name, all required strings. -/
structure MetadataValue where
  id : String
  value : String
  name : String

/-- Parse a JSON value into a `MetadataValue`. -/
def MetadataValue.fromJson : Json → Except String MetadataValue
  | .obj fields =>
    match getReqStr fields "id", getReqStr fields "value", getReqStr fields "name" with
    | .ok i, .ok v, .ok n => .ok ⟨i, v, n⟩
    | .error m, _, _ => .error m
    | _, .error m, _ => .error m
    | _, _, .error m => .error m
  | _ => .error "MetadataValue"

/-- `model_dump()` of a metadata value. -/
def MetadataValue.model_dump (v : MetadataValue) : Json :=
  .obj [("id", .str v.id), ("value", .str v.value), ("name", .str v.name)]

/-- `DocumentMetadata`: document_id plus an ordered metadata_list. -/
structure DocumentMetadata where
  document_id : String
  metadata_list : List MetadataValue

/-- `DocumentMetadata(**mapping)`: nested validation of the metadata_list. -/
def DocumentMetadata.fromJson : Json → Except String DocumentMetadata
  | .obj fields =>
    match getReqStr fields "document_id" with
    | .error m => .error m
    | .ok did =>
      match lookupJson fields "metadata_list" with
      | some (.arr items) =>
        match items.mapM MetadataValue.fromJson with
        | .ok vs => .ok ⟨did, vs⟩
        | .error m => .error m
      | _ => .error "metadata_list"
  | _ => .error "DocumentMetadata"

/-- `model_dump()` of a document-metadata association, order preserved. -/
def DocumentMetadata.model_dump (d : DocumentMetadata) : Json :=
  .obj [("document_id", .str d.document_id),
        ("metadata_list", .arr (d.metadata_list.map MetadataValue.model_dump))]

/-- `CreateMetadataRequest`: type and name, no constraints. -/
structure CreateMetadataRequest where
  type : String
  name : String

/-- `model_dump()` of the create-metadata request. -/
def CreateMetadataRequest.model_dump (r : CreateMetadataRequest) : Json :=
  .obj [("type", .str r.type), ("name", .str r.name)]

/-- `UpdateMetadataRequest`: just a name. -/
structure UpdateMetadataRequest where
  name : String

/-- `model_dump()` of the update-metadata request. -/
def UpdateMetadataRequest.model_dump (r : UpdateMetadataRequest) : Json :=
  .obj [("name", .str r.name)]

/-- `UpdateDocumentMetadataRequest`: the list of operations. -/
structure UpdateDocumentMetadataRequest where
  operation_data : List DocumentMetadata

/-- `model_dump()` of the document-metadata update request. -/
def UpdateDocumentMetadataRequest.model_dump (r : UpdateDocumentMetadataRequest) : Json :=
  .obj [("operation_data", .arr (r.operation_data.map DocumentMetadata.model_dump))]

/-- `MetadataListResponse`: metadata fields plus the built-in toggle flag. -/
structure MetadataListResponse where
  doc_metadata : List Metadata
  built_in_field_enabled : Bool

/-- `MetadataListResponse(**response)`. -/
def MetadataListResponse.fromJson : Json → Except String MetadataListResponse
  | .obj fields =>
    match lookupJson fields "doc_metadata" with
    | some (.arr items) =>
      match items.mapM Metadata.fromJson with
      | .ok ms =>
        match getReqBool fields "built_in_field_enabled" with
        | .ok b => .ok ⟨ms, b⟩
        | .error m => .error m
      | .error m => .error m
    | _ => .error "doc_metadata"
  | _ => .error "MetadataListResponse"

-- ===== Transport model (the injected BaseClient) =====

/-- HTTP verb used by a transport call. -/
inductive HttpMethod where
  | get : HttpMethod
  | post : HttpMethod
  | patch : HttpMethod
  | delete : HttpMethod

/-- One call handed to the transport: verb, path, optional JSON body. -/
structure TransportCall where
  method : HttpMethod
  path : String
  body : Option Json

/-- A typed error raised by the transport on a non-success HTTP status. -/
structure TransportError where
  status : Nat
  message : String

/-- The injected transport: maps a call to an error or a parsed JSON response. -/
abbrev Transport := TransportCall → Except TransportError Json

/-- An error observable by a caller of the facade: a local (pydantic)
validation error, or a transport error propagated unchanged. -/
inductive DifyError where
  | validation : String → DifyError
  | transport : TransportError → DifyError

/-- Issue one transport call and parse the response; the second component is
the trace of calls issued. -/
def runRequest (t : Transport) (call : TransportCall)
    (parse : Json → Except String α) : Except DifyError α × List TransportCall :=
  (match t call with
   | .error e => .error (.transport e)
   | .ok response =>
     match parse response with
     | .error m => .error (.validation m)
     | .ok v => .ok v,
   [call])

-- ===== Client facade (tags/client.py) =====

/-- Normalization of the dual response envelope used by `list` and
`get_dataset_tags`: a bare JSON array, or an object whose `data` key (defaulting
to the empty list when absent) holds the array. -/
def parseTagsResponse : Json → Except String (List KnowledgeTag)
  | .arr items => items.mapM KnowledgeTag.fromJson
  | .obj fields =>
    match lookupJson fields "data" with
    | some (.arr items) => items.mapM KnowledgeTag.fromJson
    | some _ => .error "data"
    | none => .ok []
  | _ => .error "response"

/-- `TagsClient.create`: validate the request, POST `/v1/datasets/tags`, parse
the response as a `KnowledgeTag`. -/
def TagsClient.create (t : Transport) (name : String) :
    Except DifyError KnowledgeTag × List TransportCall :=
  match CreateKnowledgeTagRequest.validate name with
  | .error m => (.error (.validation m), [])
  | .ok req =>
    runRequest t ⟨.post, "/v1/datasets/tags", some req.model_dump⟩ KnowledgeTag.fromJson

/-- `TagsClient.list`: GET `/v1/datasets/tags`, normalizing both envelopes. -/
def TagsClient.list (t : Transport) :
    Except DifyError (List KnowledgeTag) × List TransportCall :=
  runRequest t ⟨.get, "/v1/datasets/tags", none⟩ parseTagsResponse

/-- `TagsClient.update`: validate the request, PATCH `/v1/datasets/tags`. -/
def TagsClient.update (t : Transport) (tag_id name : String) :
    Except DifyError KnowledgeTag × List TransportCall :=
  match UpdateKnowledgeTagRequest.validate name tag_id with
  | .error m => (.error (.validation m), [])
  | .ok req =>
    runRequest t ⟨.patch, "/v1/datasets/tags", some req.model_dump⟩ KnowledgeTag.fromJson

/-- `TagsClient.delete`: DELETE `/v1/datasets/tags` with the tag id in the body;
the raw success mapping is returned unparsed. -/
def TagsClient.delete (t : Transport) (tag_id : String) :
    Except DifyError Json × List TransportCall :=
  runRequest t
    ⟨.delete, "/v1/datasets/tags", some (DeleteKnowledgeTagRequest.model_dump ⟨tag_id⟩)⟩
    Except.ok

/-- `TagsClient.bind_to_dataset`: POST `/v1/datasets/tags/binding`. -/
def TagsClient.bind_to_dataset (t : Transport) (dataset_id : String)
    (tag_ids : List String) : Except DifyError Json × List TransportCall :=
  runRequest t
    ⟨.post, "/v1/datasets/tags/binding",
      some (BindDatasetToTagRequest.model_dump ⟨tag_ids, dataset_id⟩)⟩
    Except.ok

/-- `TagsClient.unbind_from_dataset`: POST `/v1/datasets/tags/unbinding`. -/
def TagsClient.unbind_from_dataset (t : Transport) (dataset_id tag_id : String) :
    Except DifyError Json × List TransportCall :=
  runRequest t
    ⟨.post, "/v1/datasets/tags/unbinding",
      some (UnbindDatasetFromTagRequest.model_dump ⟨tag_id, dataset_id⟩)⟩
    Except.ok

/-- `TagsClient.get_dataset_tags`: GET `/v1/datasets/{id}/tags`, with the same
dual-envelope normalization as `list`. -/
def TagsClient.get_dataset_tags (t : Transport) (dataset_id : String) :
    Except DifyError (List KnowledgeTag) × List TransportCall :=
  runRequest t ⟨.get, "/v1/datasets/" ++ dataset_id ++ "/tags", none⟩ parseTagsResponse

/-- `TagsClient.create_metadata`: POST `/v1/datasets/{id}/metadata`. -/
def TagsClient.create_metadata (t : Transport) (dataset_id field_type name : String) :
    Except DifyError Metadata × List TransportCall :=
  runRequest t
    ⟨.post, "/v1/datasets/" ++ dataset_id ++ "/metadata",
      some (CreateMetadataRequest.model_dump ⟨field_type, name⟩)⟩
    Metadata.fromJson

/-- `TagsClient.update_metadata`: PATCH `/v1/datasets/{id}/metadata/{mid}`. -/
def TagsClient.update_metadata (t : Transport) (dataset_id metadata_id name : String) :
    Except DifyError Metadata × List TransportCall :=
  runRequest t
    ⟨.patch, "/v1/datasets/" ++ dataset_id ++ "/metadata/" ++ metadata_id,
      some (UpdateMetadataRequest.model_dump ⟨name⟩)⟩
    Metadata.fromJson

/-- `TagsClient.delete_metadata`: DELETE `/v1/datasets/{id}/metadata/{mid}`,
no body. -/
def TagsClient.delete_metadata (t : Transport) (dataset_id metadata_id : String) :
    Except DifyError Json × List TransportCall :=
  runRequest t
    ⟨.delete, "/v1/datasets/" ++ dataset_id ++ "/metadata/" ++ metadata_id, none⟩
    Except.ok

/-- `TagsClient.toggle_built_in_metadata`: POST
`/v1/datasets/{id}/metadata/built-in/{action}`.  The `action` argument is only
statically annotated in the source; no runtime check is performed, the string
is interpolated into the path as-is. -/
def TagsClient.toggle_built_in_metadata (t : Transport) (dataset_id action : String) :
    Except DifyError Json × List TransportCall :=
  runRequest t
    ⟨.post, "/v1/datasets/" ++ dataset_id ++ "/metadata/built-in/" ++ action, none⟩
    Except.ok

/-- An element of `operation_data`: either a pre-built `DocumentMetadata` or a
raw mapping. -/
inductive OperationItem where
  | model : DocumentMetadata → OperationItem
  | raw : Json → OperationItem

/-- The per-item normalization loop of `update_document_metadata`: raw mappings
are validated into `DocumentMetadata`, pre-built values pass through. -/
def normalizeOperationItem : OperationItem → Except String DocumentMetadata
  | .model d => .ok d
  | .raw j => DocumentMetadata.fromJson j

/-- `TagsClient.update_document_metadata`: normalize every item, then POST
`/v1/datasets/{id}/documents/metadata` with the unified serialized payload. -/
def TagsClient.update_document_metadata (t : Transport) (dataset_id : String)
    (operation_data : List OperationItem) : Except DifyError Json × List TransportCall :=
  match operation_data.mapM normalizeOperationItem with
  | .error m => (.error (.validation m), [])
  | .ok converted =>
    runRequest t
      ⟨.post, "/v1/datasets/" ++ dataset_id ++ "/documents/metadata",
        some (UpdateDocumentMetadataRequest.model_dump ⟨converted⟩)⟩
      Except.ok

/-- `TagsClient.list_metadata`: GET `/v1/datasets/{id}/metadata`. -/
def TagsClient.list_metadata (t : Transport) (dataset_id : String) :
    Except DifyError MetadataListResponse × List TransportCall :=
  runRequest t ⟨.get, "/v1/datasets/" ++ dataset_id ++ "/metadata", none⟩
    MetadataListResponse.fromJson

-- ===== Shape predicates used to characterize response parsing =====

/-- The key is present and holds a JSON string. -/
def presentStr (fields : List (String × Json)) (key : String) : Bool :=
  match lookupJson fields key with
  | some (.str _) => true
  | _ => false

/-- The key is absent, null, or holds a JSON string (legal `Optional[str]`). -/
def optStrOk (fields : List (String × Json)) (key : String) : Bool :=
  match lookupJson fields key with
  | none => true
  | some .null => true
  | some (.str _) => true
  | _ => false

/-- The key is absent, null, or holds a JSON integer (legal `Optional[int]`). -/
def optIntOk (fields : List (String × Json)) (key : String) : Bool :=
  match lookupJson fields key with
  | none => true
  | some .null => true
  | some (.int _) => true
  | _ => false

/-- Every facade method issues exactly one transport call on locally valid
input, and returns the transport's error unchanged when that call fails. -/
def singleCallConclusion (t : Transport) (e : TransportError)
    (name tag_id dataset_id metadata_id field_type action : String)
    (tag_ids : List String) (items : List OperationItem) : Prop :=
  (TagsClient.create t name).2.length = 1 ∧
  (TagsClient.create (fun _ => Except.error e) name).1 = .error (.transport e) ∧
  (TagsClient.list t).2.length = 1 ∧
  (TagsClient.list (fun _ => Except.error e)).1 = .error (.transport e) ∧
  (TagsClient.update t tag_id name).2.length = 1 ∧
  (TagsClient.update (fun _ => Except.error e) tag_id name).1 = .error (.transport e) ∧
  (TagsClient.delete t tag_id).2.length = 1 ∧
  (TagsClient.delete (fun _ => Except.error e) tag_id).1 = .error (.transport e) ∧
  (TagsClient.bind_to_dataset t dataset_id tag_ids).2.length = 1 ∧
  (TagsClient.bind_to_dataset (fun _ => Except.error e) dataset_id tag_ids).1 =
    .error (.transport e) ∧
  (TagsClient.unbind_from_dataset t dataset_id tag_id).2.length = 1 ∧
  (TagsClient.unbind_from_dataset (fun _ => Except.error e) dataset_id tag_id).1 =
    .error (.transport e) ∧
  (TagsClient.get_dataset_tags t dataset_id).2.length = 1 ∧
  (TagsClient.get_dataset_tags (fun _ => Except.error e) dataset_id).1 =
    .error (.transport e) ∧
  (TagsClient.create_metadata t dataset_id field_type name).2.length = 1 ∧
  (TagsClient.create_metadata (fun _ => Except.error e) dataset_id field_type name).1 =
    .error (.transport e) ∧
  (TagsClient.update_metadata t dataset_id metadata_id name).2.length = 1 ∧
  (TagsClient.update_metadata (fun _ => Except.error e) dataset_id metadata_id name).1 =
    .error (.transport e) ∧
  (TagsClient.delete_metadata t dataset_id metadata_id).2.length = 1 ∧
  (TagsClient.delete_metadata (fun _ => Except.error e) dataset_id metadata_id).1 =
    .error (.transport e) ∧
  (TagsClient.toggle_built_in_metadata t dataset_id action).2.length = 1 ∧
  (TagsClient.toggle_built_in_metadata (fun _ => Except.error e) dataset_id action).1 =
    .error (.transport e) ∧
  (TagsClient.update_document_metadata t dataset_id items).2.length = 1 ∧
  (TagsClient.update_document_metadata (fun _ => Except.error e) dataset_id items).1 =
    .error (.transport e) ∧
  (TagsClient.list_metadata t dataset_id).2.length = 1 ∧
  (TagsClient.list_metadata (fun _ => Except.error e) dataset_id).1 = .error (.transport e)

-- ===== Concrete inputs used to witness the theorems below =====

/-- The raw mapping of the spec's round-trip scenario. -/
def roundTripMapping : Json :=
  .obj [("document_id", .str "d1"),
        ("metadata_list", .arr [.obj [("id", .str "m1"), ("value", .str "v1"),
                                      ("name", .str "f1")]])]

/-- A mixed operation list: one raw mapping followed by one pre-built value. -/
def mixedItems : List OperationItem :=
  [.raw roundTripMapping, .model ⟨"d2", [⟨"m2", "v2", "f2"⟩]⟩]

/-- The normalization of `mixedItems`. -/
def mixedItemsNormalized : List DocumentMetadata :=
  [⟨"d1", [⟨"m1", "v1", "f1"⟩]⟩, ⟨"d2", [⟨"m2", "v2", "f2"⟩]⟩]

/-- A well-formed `KnowledgeTag` response mapping. -/
def ktResponseFields : List (String × Json) :=
  [("id", .str "t1"), ("name", .str "Research")]

/-- A well-formed `Metadata` response mapping. -/
def mdResponseFields : List (String × Json) :=
  [("id", .str "m1"), ("type", .str "string"), ("name", .str "source")]

-- ===== Helper lemmas =====

/-- `runRequest` always issues exactly the one call it was given. -/
theorem runRequest_calls (t : Transport) (call : TransportCall)
    (parse : Json → Except String α) : (runRequest t call parse).2 = [call] := rfl

/-- The call trace of `runRequest` has length one. -/
theorem runRequest_calls_length (t : Transport) (call : TransportCall)
    (parse : Json → Except String α) : (runRequest t call parse).2.length = 1 := rfl

/-- A failing transport's error comes back unchanged, wrapped as a `DifyError`. -/
theorem runRequest_transport_error (e : TransportError) (call : TransportCall)
    (parse : Json → Except String α) :
    (runRequest (fun _ => Except.error e) call parse).1 = .error (.transport e) := rfl

/-- Cons of a key different from the looked-up one does not change the lookup. -/
theorem lookupJson_cons_ne {k key : String} {v : Json} {fields : List (String × Json)}
    (h : ¬k = key) : lookupJson ((k, v) :: fields) key = lookupJson fields key := by
  simp [lookupJson, h]

/-- A required-string getter succeeds exactly on a present string field. -/
theorem isOkE_getReqStr (fields : List (String × Json)) (key : String) :
    isOkE (getReqStr fields key) = presentStr fields key := by
  unfold getReqStr presentStr
  cases lookupJson fields key with
  | none => rfl
  | some j => cases j <;> rfl

/-- An optional-string getter succeeds exactly on an absent/null/string field. -/
theorem isOkE_getOptStr (fields : List (String × Json)) (key : String) :
    isOkE (getOptStr fields key) = optStrOk fields key := by
  unfold getOptStr optStrOk
  cases lookupJson fields key with
  | none => rfl
  | some j => cases j <;> rfl

/-- An optional-int getter succeeds exactly on an absent/null/int field. -/
theorem isOkE_getOptInt (fields : List (String × Json)) (key : String) :
    isOkE (getOptInt fields key) = optIntOk fields key := by
  unfold getOptInt optIntOk
  cases lookupJson fields key with
  | none => rfl
  | some j => cases j <;> rfl

/-- Normalizing a list made only of pre-built `DocumentMetadata` values is the
identity. -/
theorem mapM_normalize_model (ds : List DocumentMetadata) :
    (ds.map OperationItem.model).mapM normalizeOperationItem = Except.ok ds := by
  induction ds with
  | nil => rfl
  | cons d rest ih =>
    rw [List.map_cons, List.mapM_cons, ih]
    rfl

/-- `KnowledgeTag` parsing succeeds exactly when both required fields are
present strings and every declared optional field, when present and non-null,
has the declared shape. -/
theorem knowledgeTag_fromObj_isOk (fields : List (String × Json)) :
    isOkE (KnowledgeTag.fromObj fields) =
      (presentStr fields "id" && presentStr fields "name" && optStrOk fields "color" &&
        optIntOk fields "created_at" && optIntOk fields "updated_at" &&
        optIntOk fields "binding_count") := by
  simp only [← isOkE_getReqStr, ← isOkE_getOptStr, ← isOkE_getOptInt]
  unfold KnowledgeTag.fromObj
  cases getReqStr fields "id" <;> cases getReqStr fields "name" <;>
    cases getOptStr fields "color" <;> cases getOptInt fields "created_at" <;>
    cases getOptInt fields "updated_at" <;> cases getOptInt fields "binding_count" <;> rfl

/-- `Metadata` parsing succeeds exactly when the three required fields are
present strings and `use_count`, when present and non-null, is an integer. -/
theorem metadata_fromObj_isOk (fields : List (String × Json)) :
    isOkE (Metadata.fromObj fields) =
      (presentStr fields "id" && presentStr fields "type" && presentStr fields "name" &&
        optIntOk fields "use_count") := by
  simp only [← isOkE_getReqStr, ← isOkE_getOptInt]
  unfold Metadata.fromObj
  cases getReqStr fields "id" <;> cases getReqStr fields "type" <;>
    cases getReqStr fields "name" <;> cases getOptInt fields "use_count" <;> rfl

/-- An undeclared key does not affect `KnowledgeTag` parsing. -/
theorem knowledgeTag_fromObj_cons (fields : List (String × Json)) (k : String) (v : Json)
    (h1 : ¬k = "id") (h2 : ¬k = "name") (h3 : ¬k = "color") (h4 : ¬k = "created_at")
    (h5 : ¬k = "updated_at") (h6 : ¬k = "binding_count") :
    KnowledgeTag.fromObj ((k, v) :: fields) = KnowledgeTag.fromObj fields := by
  unfold KnowledgeTag.fromObj getReqStr getOptStr getOptInt
  rw [lookupJson_cons_ne h1, lookupJson_cons_ne h2, lookupJson_cons_ne h3,
    lookupJson_cons_ne h4, lookupJson_cons_ne h5, lookupJson_cons_ne h6]

/-- An undeclared key does not affect `Metadata` parsing. -/
theorem metadata_fromObj_cons (fields : List (String × Json)) (k : String) (v : Json)
    (h1 : ¬k = "id") (h2 : ¬k = "type") (h3 : ¬k = "name") (h4 : ¬k = "use_count") :
    Metadata.fromObj ((k, v) :: fields) = Metadata.fromObj fields := by
  unfold Metadata.fromObj getReqStr getOptInt
  rw [lookupJson_cons_ne h1, lookupJson_cons_ne h2, lookupJson_cons_ne h3,
    lookupJson_cons_ne h4]

-- ===== Claims =====

/-- C1: for every sequence of tag objects, `list()` and
`get_dataset_tags(dataset_id)` behave identically (same result, same issued
call) whether the transport returns the sequence as a bare JSON array or
wrapped under a `data` key, so callers cannot observe which envelope the
server used. -/
theorem dual_envelope_unobservable (ts : List Json) (dataset_id : String) :
    TagsClient.list (fun _ => .ok (.arr ts)) =
      TagsClient.list (fun _ => .ok (.obj [("data", .arr ts)])) ∧
    TagsClient.get_dataset_tags (fun _ => .ok (.arr ts)) dataset_id =
      TagsClient.get_dataset_tags (fun _ => .ok (.obj [("data", .arr ts)])) dataset_id :=
  ⟨rfl, rfl⟩

/-- C2: a create-tag request constructed from a name of length at most 50
passes validation, while `create` and `update` on a name of length at least 51
fail locally with a validation error and issue no transport call. -/
theorem tag_name_length_validation (name_ok name_long tag_id : String) (t : Transport)
    (hok : name_ok.length ≤ 50) (hlong : 51 ≤ name_long.length) :
    CreateKnowledgeTagRequest.validate name_ok = .ok ⟨name_ok⟩ ∧
    TagsClient.create t name_long = (.error (.validation "name"), []) ∧
    TagsClient.update t tag_id name_long = (.error (.validation "name"), []) := by
  have hn : ¬name_long.length ≤ 50 := by omega
  refine ⟨if_pos hok, ?_, ?_⟩
  · unfold TagsClient.create CreateKnowledgeTagRequest.validate
    rw [if_neg hn]
  · unfold TagsClient.update UpdateKnowledgeTagRequest.validate
    rw [if_neg hn]

/-- Witness for C2 at name "Research" (length 8) and a 51-character name. -/
theorem tag_name_length_validation_witness :
    ("Research".length ≤ 50 ∧
      51 ≤ "aaaaaaaaaaaaaaaaaaaaaaaaaaaaaaaaaaaaaaaaaaaaaaaaaaa".length) ∧
    (CreateKnowledgeTagRequest.validate "Research" = .ok ⟨"Research"⟩ ∧
     TagsClient.create (fun _ => .ok .null)
        "aaaaaaaaaaaaaaaaaaaaaaaaaaaaaaaaaaaaaaaaaaaaaaaaaaa" =
       (.error (.validation "name"), []) ∧
     TagsClient.update (fun _ => .ok .null) "t1"
        "aaaaaaaaaaaaaaaaaaaaaaaaaaaaaaaaaaaaaaaaaaaaaaaaaaa" =
       (.error (.validation "name"), [])) :=
  ⟨⟨by decide, by decide⟩,
   tag_name_length_validation "Research"
     "aaaaaaaaaaaaaaaaaaaaaaaaaaaaaaaaaaaaaaaaaaaaaaaaaaa" "t1" _
     (by decide) (by decide)⟩

/-- C3 counterexample: `toggle_built_in_metadata` called with the action
"destroy" (outside {"enable", "disable"}) does issue a transport call — with
the action interpolated into the path — and returns the server's response
instead of failing locally with a validation error. -/
theorem toggle_invalid_action_calls_transport :
    (TagsClient.toggle_built_in_metadata
        (fun _ => .ok (.obj [("result", .str "success")])) "ds1" "destroy").2 =
      [⟨HttpMethod.post, "/v1/datasets/ds1/metadata/built-in/destroy", none⟩] ∧
    (TagsClient.toggle_built_in_metadata
        (fun _ => .ok (.obj [("result", .str "success")])) "ds1" "destroy").1 =
      .ok (.obj [("result", .str "success")]) :=
  ⟨rfl, rfl⟩

/-- C3 amended: `toggle_built_in_metadata` performs no local validation of
`action` (the `Literal` annotation is static only); for every action string it
issues exactly one POST with the action interpolated into the path, and
transport errors come back unchanged — invalid actions are rejected by the
server, not locally. -/
theorem toggle_action_not_validated_locally (t : Transport) (e : TransportError)
    (dataset_id action : String) :
    (TagsClient.toggle_built_in_metadata t dataset_id action).2 =
      [⟨HttpMethod.post, "/v1/datasets/" ++ dataset_id ++ "/metadata/built-in/" ++ action,
        none⟩] ∧
    (TagsClient.toggle_built_in_metadata (fun _ => Except.error e) dataset_id action).1 =
      .error (.transport e) :=
  ⟨rfl, rfl⟩

/-- C4 counterexample: `bind_to_dataset` with an empty `tag_ids` list does not
fail locally; it serializes the empty list and issues the transport call,
returning the server's response. -/
theorem bind_empty_tag_ids_calls_transport :
    (TagsClient.bind_to_dataset
        (fun _ => .ok (.obj [("result", .str "success")])) "ds1" []).2 =
      [⟨HttpMethod.post, "/v1/datasets/tags/binding",
        some (.obj [("tag_ids", .arr []), ("target_id", .str "ds1")])⟩] ∧
    (TagsClient.bind_to_dataset
        (fun _ => .ok (.obj [("result", .str "success")])) "ds1" []).1 =
      .ok (.obj [("result", .str "success")]) :=
  ⟨rfl, rfl⟩

/-- C4 amended: `bind_to_dataset` performs no local non-emptiness check on
`tag_ids`; for every list (the empty one included) it issues exactly one POST
to `/v1/datasets/tags/binding` carrying the serialized ids, and transport
errors come back unchanged. -/
theorem bind_tag_ids_not_validated_locally (t : Transport) (e : TransportError)
    (dataset_id : String) (tag_ids : List String) :
    (TagsClient.bind_to_dataset t dataset_id tag_ids).2 =
      [⟨HttpMethod.post, "/v1/datasets/tags/binding",
        some (.obj [("tag_ids", .arr (tag_ids.map Json.str)),
                    ("target_id", .str dataset_id)])⟩] ∧
    (TagsClient.bind_to_dataset (fun _ => Except.error e) dataset_id tag_ids).1 =
      .error (.transport e) :=
  ⟨rfl, rfl⟩

/-- C5: `update_document_metadata` on a mixed list whose raw mappings all
normalize behaves exactly as on the list where every item is the corresponding
pre-built `DocumentMetadata`: one unified serialized payload, with the order of
items (and of each item's `metadata_list`, carried inside each value)
preserved. -/
theorem mixed_operation_data_unified_payload (t : Transport) (dataset_id : String)
    (items : List OperationItem) (ds : List DocumentMetadata)
    (h : items.mapM normalizeOperationItem = Except.ok ds) :
    TagsClient.update_document_metadata t dataset_id items =
      TagsClient.update_document_metadata t dataset_id (ds.map OperationItem.model) := by
  unfold TagsClient.update_document_metadata
  rw [h, mapM_normalize_model]

/-- Witness for C5 on a list mixing one raw mapping and one pre-built value. -/
theorem mixed_operation_data_unified_payload_witness :
    mixedItems.mapM normalizeOperationItem = Except.ok mixedItemsNormalized ∧
    TagsClient.update_document_metadata (fun _ => .ok .null) "ds1" mixedItems =
      TagsClient.update_document_metadata (fun _ => .ok .null) "ds1"
        (mixedItemsNormalized.map OperationItem.model) :=
  ⟨rfl, mixed_operation_data_unified_payload _ "ds1" mixedItems mixedItemsNormalized rfl⟩

/-- C6: constructing a `DocumentMetadata` from the raw mapping
`{"document_id": "d1", "metadata_list": [{"id": "m1", "value": "v1",
"name": "f1"}]}` succeeds, and serializing the result back yields a mapping
equal in content to the input. -/
theorem document_metadata_round_trip :
    DocumentMetadata.fromJson roundTripMapping =
      Except.ok ⟨"d1", [⟨"m1", "v1", "f1"⟩]⟩ ∧
    (DocumentMetadata.fromJson roundTripMapping).map DocumentMetadata.model_dump =
      Except.ok roundTripMapping :=
  ⟨rfl, rfl⟩

/-- C7 counterexample: the mapping `{"id": "t1", "name": "n", "color": 5}` has
every required `KnowledgeTag` field present and well-shaped, yet parsing fails,
because the declared optional field `color` has the wrong shape — so "fails
exactly when a required field is absent or of the wrong shape" does not hold as
stated. -/
theorem response_parsing_fails_on_bad_optional :
    isOkE (KnowledgeTag.fromObj
      [("id", .str "t1"), ("name", .str "n"), ("color", .int 5)]) = false ∧
    presentStr [("id", .str "t1"), ("name", .str "n"), ("color", .int 5)] "id" = true ∧
    presentStr [("id", .str "t1"), ("name", .str "n"), ("color", .int 5)] "name" = true :=
  ⟨rfl, rfl, rfl⟩

/-- C7 amended: parsing a response mapping into `KnowledgeTag` or `Metadata`
silently ignores undeclared keys, and fails exactly when a required field is
absent or of the wrong shape, or a declared optional field is present with a
non-null value of the wrong shape. -/
theorem response_parsing_characterization
    (ktFields mdFields : List (String × Json)) (k : String) (v : Json)
    (h1 : ¬k = "id") (h2 : ¬k = "name") (h3 : ¬k = "color") (h4 : ¬k = "created_at")
    (h5 : ¬k = "updated_at") (h6 : ¬k = "binding_count") (h7 : ¬k = "type")
    (h8 : ¬k = "use_count") :
    KnowledgeTag.fromObj ((k, v) :: ktFields) = KnowledgeTag.fromObj ktFields ∧
    Metadata.fromObj ((k, v) :: mdFields) = Metadata.fromObj mdFields ∧
    isOkE (KnowledgeTag.fromObj ktFields) =
      (presentStr ktFields "id" && presentStr ktFields "name" &&
        optStrOk ktFields "color" && optIntOk ktFields "created_at" &&
        optIntOk ktFields "updated_at" && optIntOk ktFields "binding_count") ∧
    isOkE (Metadata.fromObj mdFields) =
      (presentStr mdFields "id" && presentStr mdFields "type" &&
        presentStr mdFields "name" && optIntOk mdFields "use_count") :=
  ⟨knowledgeTag_fromObj_cons ktFields k v h1 h2 h3 h4 h5 h6,
   metadata_fromObj_cons mdFields k v h1 h7 h2 h8,
   knowledgeTag_fromObj_isOk ktFields, metadata_fromObj_isOk mdFields⟩

/-- Witness for C7 at concrete well-formed mappings and the undeclared key
"server_new_field". -/
theorem response_parsing_characterization_witness :
    (¬"server_new_field" = "id" ∧ ¬"server_new_field" = "name" ∧
      ¬"server_new_field" = "color" ∧ ¬"server_new_field" = "created_at" ∧
      ¬"server_new_field" = "updated_at" ∧ ¬"server_new_field" = "binding_count" ∧
      ¬"server_new_field" = "type" ∧ ¬"server_new_field" = "use_count") ∧
    (KnowledgeTag.fromObj (("server_new_field", .int 7) :: ktResponseFields) =
       KnowledgeTag.fromObj ktResponseFields ∧
     Metadata.fromObj (("server_new_field", .int 7) :: mdResponseFields) =
       Metadata.fromObj mdResponseFields ∧
     isOkE (KnowledgeTag.fromObj ktResponseFields) =
       (presentStr ktResponseFields "id" && presentStr ktResponseFields "name" &&
         optStrOk ktResponseFields "color" && optIntOk ktResponseFields "created_at" &&
         optIntOk ktResponseFields "updated_at" &&
         optIntOk ktResponseFields "binding_count") ∧
     isOkE (Metadata.fromObj mdResponseFields) =
       (presentStr mdResponseFields "id" && presentStr mdResponseFields "type" &&
         presentStr mdResponseFields "name" && optIntOk mdResponseFields "use_count")) :=
  ⟨by decide,
   response_parsing_characterization ktResponseFields mdResponseFields
     "server_new_field" (.int 7) (by decide) (by decide) (by decide) (by decide)
     (by decide) (by decide) (by decide) (by decide)⟩

/-- C8: creating the tag "Research" against a transport answering
`{"id": "t1", "name": "Research"}` yields a `KnowledgeTag` with id "t1", name
"Research", and every optional field equal to `none`. -/
theorem create_research_scenario :
    TagsClient.create
        (fun _ => .ok (.obj [("id", .str "t1"), ("name", .str "Research")]))
        "Research" =
      (.ok ⟨"t1", "Research", none, none, none, none⟩,
       [⟨HttpMethod.post, "/v1/datasets/tags", some (.obj [("name", .str "Research")])⟩]) :=
  rfl

/-- C9: every facade method, on input passing local validation, issues exactly
one transport call — no retries, no batching, no caching — and propagates a
transport error unchanged. -/
theorem facade_exactly_one_transport_call (t : Transport) (e : TransportError)
    (name tag_id dataset_id metadata_id field_type action : String)
    (tag_ids : List String) (items : List OperationItem) (ds : List DocumentMetadata)
    (hname : name.length ≤ 50)
    (hitems : items.mapM normalizeOperationItem = Except.ok ds) :
    singleCallConclusion t e name tag_id dataset_id metadata_id field_type action
      tag_ids items := by
  have hv1 : CreateKnowledgeTagRequest.validate name = .ok ⟨name⟩ := if_pos hname
  have hv2 : UpdateKnowledgeTagRequest.validate name tag_id = .ok ⟨name, tag_id⟩ :=
    if_pos hname
  unfold singleCallConclusion TagsClient.create TagsClient.list TagsClient.update
    TagsClient.delete TagsClient.bind_to_dataset TagsClient.unbind_from_dataset
    TagsClient.get_dataset_tags TagsClient.create_metadata TagsClient.update_metadata
    TagsClient.delete_metadata TagsClient.toggle_built_in_metadata
    TagsClient.update_document_metadata TagsClient.list_metadata
  rw [hv1, hv2, hitems]
  exact ⟨rfl, rfl, rfl, rfl, rfl, rfl, rfl, rfl, rfl, rfl, rfl, rfl, rfl, rfl,
    rfl, rfl, rfl, rfl, rfl, rfl, rfl, rfl, rfl, rfl, rfl, rfl⟩

/-- Witness for C9 at concrete arguments. -/
theorem facade_exactly_one_transport_call_witness :
    ("Research".length ≤ 50 ∧
      ([] : List OperationItem).mapM normalizeOperationItem =
        Except.ok ([] : List DocumentMetadata)) ∧
    singleCallConclusion (fun _ => .ok .null) ⟨500, "server error"⟩ "Research" "t1"
      "ds1" "m1" "string" "enable" ["tag-a"] [] :=
  ⟨⟨by decide, rfl⟩,
   facade_exactly_one_transport_call _ _ _ _ _ _ _ _ _ _ _ (by decide) rfl⟩

/-- C10: when the transport answers `list()` or `get_dataset_tags()` with a
mapping that lacks a `data` key, both return the empty sequence rather than
raising an error. -/
theorem missing_data_key_yields_empty (fields : List (String × Json))
    (dataset_id : String) (h : lookupJson fields "data" = none) :
    (TagsClient.list (fun _ => .ok (.obj fields))).1 = .ok [] ∧
    (TagsClient.get_dataset_tags (fun _ => .ok (.obj fields)) dataset_id).1 = .ok [] := by
  have hp : parseTagsResponse (.obj fields) = .ok [] := by
    simp only [parseTagsResponse]
    rw [h]
  constructor <;> simp [TagsClient.list, TagsClient.get_dataset_tags, runRequest, hp]

/-- Witness for C10 at the empty response object. -/
theorem missing_data_key_yields_empty_witness :
    lookupJson [] "data" = none ∧
    (TagsClient.list (fun _ => .ok (.obj []))).1 = .ok [] ∧
    (TagsClient.get_dataset_tags (fun _ => .ok (.obj [])) "ds1").1 = .ok [] :=
  ⟨rfl, (missing_data_key_yields_empty [] "ds1" rfl).1,
   (missing_data_key_yields_empty [] "ds1" rfl).2⟩
